import Mathlib

/-!
Verification development for the admission-webhook exclusion rule engine
(`exclusionrules` package): data model, matcher, config loader, rule
validator and excluder, embedded shallowly from the Go source, with
theorems settling the specification claims.
-/

/-- Embedding of `admissionregistration/v1.ScopeType`. In the source this
is an open string type (`type ScopeType string`): `json.Unmarshal` will
store any string in a rule's `Scope` field, not only the three named
constants, so the embedding keeps the whole string type. -/
abbrev ScopeType := String

/-- Embedding of `v1.ClusterScope`. -/
def ClusterScope : ScopeType := "Cluster"

/-- Embedding of `v1.NamespacedScope`. -/
def NamespacedScope : ScopeType := "Namespaced"

/-- Embedding of `v1.AllScopes`, which is the wildcard token. -/
def AllScopes : ScopeType := "*"

/-- Embedding of `schema.GroupVersionResource`. -/
structure GroupVersionResource where
  group : String
  version : String
  resource : String
deriving DecidableEq, Repr

/-- Embedding of `schema.GroupVersionKind`. -/
structure GroupVersionKind where
  group : String
  version : String
  kind : String
deriving DecidableEq, Repr

/-- Embedding of `ExclusionRule` from the source, field for field and in declaration
order: `APIGroup`, `APIVersion`, `Name` (a list), `Kind`, `Namespace`,
`Scope` (a nullable pointer, embedded as `Option`). -/
structure ExclusionRule where
  apiGroup : String
  apiVersion : String
  name : List String
  kind : String
  «namespace» : String
  scope : Option ScopeType
deriving DecidableEq, Repr

/-- The request attributes consumed by the matcher: the getters of
`admission.Attributes` that the package reads (`GetKind`, `GetNamespace`,
`GetName`, `GetResource`, `GetSubresource`, `GetOperation`). -/
structure Attributes where
  kind : GroupVersionKind
  «namespace» : String
  name : String
  resource : GroupVersionResource
  subresource : String
  operation : String
deriving DecidableEq, Repr

/-- Embedding of `var namespaceResource = schema.GroupVersionResource\x7bGroup: "", Version: "v1", Resource: "namespaces"\x7d`. -/
def namespaceResource : GroupVersionResource :=
  { group := "", version := "v1", resource := "namespaces" }

/-- A `Matcher` pairs one rule with one request's attributes. -/
structure Matcher where
  exclusionRule : ExclusionRule
  attr : Attributes

/-- Embedding of `exactOrWildcard`: the requested string is in the list, or the list
holds the wildcard token `*`. -/
def exactOrWildcard : List String → String → Bool
  | [], _ => false
  | item :: items, requested =>
    if item = "*" then true
    else if item = requested then true
    else exactOrWildcard items requested

/-- Embedding of `Matcher.group`: the rule's `APIGroup` equals the request resource's group. -/
def Matcher.group (r : Matcher) : Bool :=
  decide (r.exclusionRule.apiGroup = r.attr.resource.group)

/-- Embedding of `Matcher.name`: the request's name is in the rule's name list, or the
list holds the wildcard. -/
def Matcher.name (r : Matcher) : Bool :=
  exactOrWildcard r.exclusionRule.name r.attr.name

/-- Embedding of `Matcher.namespace`: the rule's namespace equals the request's namespace. -/
def Matcher.«namespace» (r : Matcher) : Bool :=
  decide (r.exclusionRule.«namespace» = r.attr.«namespace»)

/-- Embedding of `Matcher.version`: the rule's `APIVersion` equals the request resource's version. -/
def Matcher.version (r : Matcher) : Bool :=
  decide (r.exclusionRule.apiVersion = r.attr.resource.version)

/-- Embedding of `Matcher.kind`: the rule's `Kind` equals the request kind's kind. -/
def Matcher.kind (r : Matcher) : Bool :=
  decide (r.exclusionRule.kind = r.attr.kind.kind)

/-- Embedding of `Matcher.scope`: false for an unset or `AllScopes` scope; a
`Namespaced` rule requires a non-namespace resource with a non-empty
namespace; a `Cluster` rule requires the namespaces resource or an empty
namespace (`metav1.NamespaceNone` is the empty string). -/
def Matcher.scope (r : Matcher) : Bool :=
  match r.exclusionRule.scope with
  | none => false
  | some s =>
    if s = AllScopes then false
    else if s = NamespacedScope then
      decide (r.attr.resource ≠ namespaceResource) && decide (r.attr.«namespace» ≠ "")
    else if s = ClusterScope then
      decide (r.attr.resource = namespaceResource) || decide (r.attr.«namespace» = "")
    else false

/-- Embedding of `Matcher.Matches`, exactly as written in the source: the conjunction of
`name`, `namespace`, `group`, `version` and `kind`. The source's `scope`
method is not consulted here. -/
def Matcher.Matches (r : Matcher) : Bool :=
  r.name && r.«namespace» && r.group && r.version && r.kind

/-- Embedding of `contains`: linear membership test on a string list. -/
def contains : List String → String → Bool
  | [], _ => false
  | v :: s, str => if v = str then true else contains s str

/-- Embedding of `isDisallowedNameWildcard`: the name wildcard is allowed only for
`coordination.k8s.io/v1` `Lease` in namespace `kube-node-lease`. -/
def isDisallowedNameWildcard (rule : ExclusionRule) : Bool :=
  !(decide (rule.apiGroup = "coordination.k8s.io") && decide (rule.apiVersion = "v1")
    && decide (rule.kind = "Lease") && decide (rule.«namespace» = "kube-node-lease"))

/-- Embedding of `filterValidRules`: drop rules with unset scope, any wildcard in
scope/group/version/namespace/kind, a disallowed name wildcard, a
namespace under `Cluster` scope, or a missing namespace under
`Namespaced` scope; keep the rest in input order. -/
def filterValidRules : List ExclusionRule → List ExclusionRule
  | [] => []
  | rule :: rest =>
    match rule.scope with
    | none => filterValidRules rest
    | some s =>
      if s = AllScopes ∨ rule.apiGroup = "*" ∨ rule.apiVersion = "*"
          ∨ rule.«namespace» = "*" ∨ rule.kind = "*" then
        filterValidRules rest
      else if contains rule.name "*" && isDisallowedNameWildcard rule then
        filterValidRules rest
      else if s = ClusterScope ∧ rule.«namespace» ≠ "" then
        filterValidRules rest
      else if s = NamespacedScope ∧ rule.«namespace» = "" then
        filterValidRules rest
      else
        rule :: filterValidRules rest

/-- The hardcoded default exclusion rules of `readFile`: the
leader-election `Lease` and `Endpoints` objects of the controller manager
and the scheduler in `kube-system`, both `Namespaced`. -/
def defaultExclusion : List ExclusionRule :=
  [ { apiGroup := "coordination.k8s.io", apiVersion := "v1",
      name := ["kube-controller-manager", "kube-scheduler"], kind := "Lease",
      «namespace» := "kube-system", scope := some NamespacedScope },
    { apiGroup := "", apiVersion := "v1",
      name := ["kube-controller-manager", "kube-scheduler"], kind := "Endpoints",
      «namespace» := "kube-system", scope := some NamespacedScope } ]

/-- Outcome of the environment lookup, file read and JSON unmarshal in
`readFile`; the I/O itself is outside the pure fragment, so it enters the
embedding as this input. `parsed data` is the case where `os.ReadFile`
succeeds and `json.Unmarshal` fills `data` without error. -/
inductive FileOutcome where
  | noEnvVar
  | readError
  | parseError
  | parsed (data : List ExclusionRule)
deriving DecidableEq, Repr

/-- Embedding of `readFile`: with no environment variable, an unreadable file, or an
unparsable file, the hardcoded defaults; otherwise the parsed contents
verbatim. -/
def readFile : FileOutcome → List ExclusionRule
  | FileOutcome.noEnvVar => defaultExclusion
  | FileOutcome.readError => defaultExclusion
  | FileOutcome.parseError => defaultExclusion
  | FileOutcome.parsed data => data

/-- A `CriticalPathExcluder` holds the validated rules. -/
structure CriticalPathExcluder where
  exclusionRules : List ExclusionRule

/-- The loop body of `ShouldSkipWebhookDueToExclusionRules`: return true at
the first rule the matcher accepts, false past the end. -/
def shouldSkipLoop : List ExclusionRule → Attributes → Bool
  | [], _ => false
  | r :: rs, attr =>
    if (Matcher.mk r attr).Matches then true else shouldSkipLoop rs attr

/-- Embedding of `CriticalPathExcluder.ShouldSkipWebhookDueToExclusionRules`. -/
def CriticalPathExcluder.ShouldSkipWebhookDueToExclusionRules
    (excludor : CriticalPathExcluder) (attr : Attributes) : Bool :=
  shouldSkipLoop excludor.exclusionRules attr

/-- Embedding of `NewCriticalPathExcluder`: read, validate, hold. -/
def NewCriticalPathExcluder (outcome : FileOutcome) : CriticalPathExcluder :=
  { exclusionRules := filterValidRules (readFile outcome) }

/-- The acceptance predicate of `filterValidRules`, check for check and in
the source's order, as a boolean on one rule. -/
def ruleValid (rule : ExclusionRule) : Bool :=
  match rule.scope with
  | none => false
  | some s =>
    if s = AllScopes ∨ rule.apiGroup = "*" ∨ rule.apiVersion = "*"
        ∨ rule.«namespace» = "*" ∨ rule.kind = "*" then
      false
    else if contains rule.name "*" && isDisallowedNameWildcard rule then
      false
    else if s = ClusterScope ∧ rule.«namespace» ≠ "" then
      false
    else if s = NamespacedScope ∧ rule.«namespace» = "" then
      false
    else
      true

/-- The validation conditions stated in the specification's words (§4.2):
scope present, no `All` scope and no wildcard in the four string fields, a
name wildcard only for `coordination.k8s.io/v1 Lease` in
`kube-node-lease`, empty namespace exactly for `Cluster` scope. -/
def RulePassesSpec (r : ExclusionRule) : Prop :=
  ∃ s, r.scope = some s
    ∧ s ≠ AllScopes ∧ r.apiGroup ≠ "*" ∧ r.apiVersion ≠ "*"
    ∧ r.«namespace» ≠ "*" ∧ r.kind ≠ "*"
    ∧ (contains r.name "*" = true →
        r.apiGroup = "coordination.k8s.io" ∧ r.apiVersion = "v1"
          ∧ r.kind = "Lease" ∧ r.«namespace» = "kube-node-lease")
    ∧ (s = ClusterScope → r.«namespace» = "")
    ∧ (s = NamespacedScope → r.«namespace» ≠ "")

lemma filterValidRules_eq_filter (l : List ExclusionRule) :
    filterValidRules l = l.filter ruleValid := by
  induction l with
  | nil => rfl
  | cons rule rest ih =>
    simp only [filterValidRules, ruleValid, List.filter]
    cases h : rule.scope with
    | none => simpa using ih
    | some s =>
      by_cases h1 : s = AllScopes ∨ rule.apiGroup = "*" ∨ rule.apiVersion = "*"
          ∨ rule.«namespace» = "*" ∨ rule.kind = "*"
      · simp [h1, ih]
      · by_cases h2 : (contains rule.name "*" && isDisallowedNameWildcard rule) = true
        · simp [h1, h2, ih]
        · by_cases h3 : s = ClusterScope ∧ rule.«namespace» ≠ ""
          · simp [h1, h2, h3, ih]
          · by_cases h4 : s = NamespacedScope ∧ rule.«namespace» = ""
            · simp [h1, h2, h3, h4, ih]
            · simp [h1, h2, h3, h4, ih]


lemma isDisallowedNameWildcard_eq_false_iff (r : ExclusionRule) :
    isDisallowedNameWildcard r = false ↔
      (r.apiGroup = "coordination.k8s.io" ∧ r.apiVersion = "v1"
        ∧ r.kind = "Lease" ∧ r.«namespace» = "kube-node-lease") := by
  simp [isDisallowedNameWildcard, and_assoc]

lemma ruleValid_iff_spec (r : ExclusionRule) :
    ruleValid r = true ↔ RulePassesSpec r := by
  unfold ruleValid RulePassesSpec
  cases h : r.scope with
  | none => simp
  | some s =>
    simp only [Option.some.injEq]
    constructor
    · intro hv
      by_cases h1 : s = AllScopes ∨ r.apiGroup = "*" ∨ r.apiVersion = "*"
          ∨ r.«namespace» = "*" ∨ r.kind = "*"
      · simp [h1] at hv
      · by_cases h2 : (contains r.name "*" && isDisallowedNameWildcard r) = true
        · simp [h1, h2] at hv
        · by_cases h3 : s = ClusterScope ∧ r.«namespace» ≠ ""
          · simp [h1, h2, h3] at hv
          · by_cases h4 : s = NamespacedScope ∧ r.«namespace» = ""
            · simp [h1, h2, h3, h4] at hv
            · push_neg at h1
              obtain ⟨e1, e2, e3, e4, e5⟩ := h1
              refine ⟨s, rfl, e1, e2, e3, e4, e5, ?_, ?_, ?_⟩
              · intro hcont
                have hd : isDisallowedNameWildcard r = false := by
                  cases hid : isDisallowedNameWildcard r with
                  | false => rfl
                  | true => exact absurd (by simp [hcont, hid]) h2
                exact (isDisallowedNameWildcard_eq_false_iff r).mp hd
              · intro hs
                by_contra hns
                exact h3 ⟨hs, hns⟩
              · intro hs hns
                exact h4 ⟨hs, hns⟩
    · rintro ⟨s', hs', hAll, e1, e2, e3, e4, hw, hc, hn⟩
      cases hs'
      have h1 : ¬(s = AllScopes ∨ r.apiGroup = "*" ∨ r.apiVersion = "*"
          ∨ r.«namespace» = "*" ∨ r.kind = "*") := by
        push_neg
        exact ⟨hAll, e1, e2, e3, e4⟩
      have h2 : (contains r.name "*" && isDisallowedNameWildcard r) = false := by
        cases hcont : contains r.name "*" with
        | false => simp [hcont]
        | true =>
          have hd : isDisallowedNameWildcard r = false :=
            (isDisallowedNameWildcard_eq_false_iff r).mpr (hw hcont)
          simp [hd]
      have h3 : ¬(s = ClusterScope ∧ r.«namespace» ≠ "") := by
        rintro ⟨hs, hns⟩
        exact hns (hc hs)
      have h4 : ¬(s = NamespacedScope ∧ r.«namespace» = "") := by
        rintro ⟨hs, hns⟩
        exact hn hs hns
      simp [h1, h2, h3, h4]

instance : DecidablePred RulePassesSpec := fun r =>
  decidable_of_iff (ruleValid r = true) (ruleValid_iff_spec r)

lemma decide_rulePassesSpec_eq_ruleValid (r : ExclusionRule) :
    decide (RulePassesSpec r) = ruleValid r := by
  by_cases h : RulePassesSpec r
  · simp [h, (ruleValid_iff_spec r).mpr h]
  · have : ¬ ruleValid r = true := fun hv => h ((ruleValid_iff_spec r).mp hv)
    simp [h, Bool.not_eq_true] at this ⊢
    simp [this]

lemma shouldSkipLoop_eq_any (l : List ExclusionRule) (attr : Attributes) :
    shouldSkipLoop l attr = l.any (fun r => (Matcher.mk r attr).Matches) := by
  induction l with
  | nil => rfl
  | cons r rs ih =>
    simp only [shouldSkipLoop, List.any_cons]
    cases hm : (Matcher.mk r attr).Matches with
    | true => simp
    | false => simp [ih]

/-- A `Namespaced` rule whose fields single out namespace objects named
`foo`; it passes the validator. -/
def namespacedRuleOnNamespaces : ExclusionRule :=
  { apiGroup := "", apiVersion := "v1", name := ["foo"], kind := "Namespace",
    «namespace» := "foo", scope := some NamespacedScope }

/-- The attributes of a request creating the namespace object `foo`: for a
request on a namespace object the namespace attribute carries the
namespace's own name. -/
def namespaceCreateAttributes : Attributes :=
  { kind := { group := "", version := "v1", kind := "Namespace" },
    «namespace» := "foo", name := "foo",
    resource := namespaceResource, subresource := "", operation := "CREATE" }

/-- A name-wildcard rule on `coordination.k8s.io/v1 Lease` in
`kube-node-lease` whose scope is left unset. -/
def wildcardLeaseNoScope : ExclusionRule :=
  { apiGroup := "coordination.k8s.io", apiVersion := "v1", name := ["*"],
    kind := "Lease", «namespace» := "kube-node-lease", scope := none }

/-- A name-wildcard rule on `coordination.k8s.io/v1 Lease` in
`kube-node-lease` whose scope holds the string `"Bogus"`, outside the
three named constants, as the string-typed scope field permits. -/
def wildcardLeaseBogusScope : ExclusionRule :=
  { apiGroup := "coordination.k8s.io", apiVersion := "v1", name := ["*"],
    kind := "Lease", «namespace» := "kube-node-lease",
    scope := some "Bogus" }

/-- A rule deserialized with every optional field absent except namespace
and scope: empty names list, empty group, version and kind. -/
def emptyFieldsRule : ExclusionRule :=
  { apiGroup := "", apiVersion := "", name := [], kind := "",
    «namespace» := "ns", scope := some NamespacedScope }

/-- Attributes of a write to core `v1 Endpoints` named
`kube-controller-manager`, with the namespace, subresource and operation
left as parameters. -/
def endpointsWriteAttributes (ns sub op : String) : Attributes :=
  { kind := { group := "", version := "v1", kind := "Endpoints" },
    «namespace» := ns, name := "kube-controller-manager",
    resource := { group := "", version := "v1", resource := "endpoints" },
    subresource := sub, operation := op }

/-- C1: the claim fails on the code. `Matcher.Matches` is the conjunction
of the five field predicates only and never consults `Matcher.scope`: the
`Namespaced` rule `namespacedRuleOnNamespaces` survives validation and
matches a request for the cluster-scoped namespaces resource, although the
request's derived effective scope is `Cluster` (`Matcher.scope` itself
returns `false` here). The claim requires `Matches` to be `false` at this
input; the code returns `true`. -/
theorem c1_matches_ignores_scope :
    (Matcher.mk namespacedRuleOnNamespaces namespaceCreateAttributes).Matches = true
    ∧ (Matcher.mk namespacedRuleOnNamespaces namespaceCreateAttributes).scope = false
    ∧ filterValidRules [namespacedRuleOnNamespaces] = [namespacedRuleOnNamespaces] := by
  refine ⟨by decide, by decide, by decide⟩

/-- C2: `ShouldSkipWebhookDueToExclusionRules` returns true iff some held
rule matches the request (the `any` of the matcher over the stored
sequence), returns true whenever the first rule matches whatever the rest
of the sequence is, and returns false on the empty sequence. -/
theorem c2_shouldSkip_iff_some_rule_matches
    (rules tail : List ExclusionRule) (r : ExclusionRule) (attr : Attributes)
    (h : (Matcher.mk r attr).Matches = true) :
    (CriticalPathExcluder.mk rules).ShouldSkipWebhookDueToExclusionRules attr
        = rules.any (fun q => (Matcher.mk q attr).Matches)
    ∧ (CriticalPathExcluder.mk (r :: tail)).ShouldSkipWebhookDueToExclusionRules attr = true
    ∧ (CriticalPathExcluder.mk []).ShouldSkipWebhookDueToExclusionRules attr = false := by
  refine ⟨shouldSkipLoop_eq_any rules attr, ?_, rfl⟩
  show shouldSkipLoop (r :: tail) attr = true
  simp [shouldSkipLoop, h]

/-- Witness for C2 at the default rule set: the endpoints rule matches a
write to `kube-system`'s `kube-controller-manager` endpoints, so the
excluder skips, with or without further rules, and an empty excluder never
skips. -/
theorem c2_witness :
    (Matcher.mk
        { apiGroup := "", apiVersion := "v1",
          name := ["kube-controller-manager", "kube-scheduler"], kind := "Endpoints",
          «namespace» := "kube-system", scope := some NamespacedScope }
        (endpointsWriteAttributes "kube-system" "" "UPDATE")).Matches = true
    ∧ ((CriticalPathExcluder.mk defaultExclusion).ShouldSkipWebhookDueToExclusionRules
          (endpointsWriteAttributes "kube-system" "" "UPDATE")
        = defaultExclusion.any
            (fun q => (Matcher.mk q (endpointsWriteAttributes "kube-system" "" "UPDATE")).Matches)
      ∧ (CriticalPathExcluder.mk
            [{ apiGroup := "", apiVersion := "v1",
               name := ["kube-controller-manager", "kube-scheduler"], kind := "Endpoints",
               «namespace» := "kube-system", scope := some NamespacedScope }]
          ).ShouldSkipWebhookDueToExclusionRules
            (endpointsWriteAttributes "kube-system" "" "UPDATE") = true
      ∧ (CriticalPathExcluder.mk []).ShouldSkipWebhookDueToExclusionRules
          (endpointsWriteAttributes "kube-system" "" "UPDATE") = false) :=
  ⟨by decide,
    c2_shouldSkip_iff_some_rule_matches defaultExclusion []
      { apiGroup := "", apiVersion := "v1",
        name := ["kube-controller-manager", "kube-scheduler"], kind := "Endpoints",
        «namespace» := "kube-system", scope := some NamespacedScope }
      (endpointsWriteAttributes "kube-system" "" "UPDATE") (by decide)⟩

/-- C3: counterexample to "never returns an empty rule set". A designated
file that reads and parses successfully as an empty list (e.g. the JSON
text `[]`) is returned verbatim, so `readFile` does return an empty rule
set. -/
theorem c3_counterexample : readFile (FileOutcome.parsed []) = [] := rfl

/-- C3 amended: `readFile` is total; with no environment indicator, an
unreadable file or an unparsable file it returns exactly the hardcoded
default pair of rules (`coordination.k8s.io/v1 Lease` and core
`v1 Endpoints`, namespace `kube-system`, names `kube-controller-manager`
and `kube-scheduler`, scope `Namespaced`), which is nonempty; a file that
parses is returned verbatim without validation, and only then may the
result be empty. -/
theorem c3_loader_defaults (data : List ExclusionRule) :
    readFile FileOutcome.noEnvVar = defaultExclusion
    ∧ readFile FileOutcome.readError = defaultExclusion
    ∧ readFile FileOutcome.parseError = defaultExclusion
    ∧ defaultExclusion =
        [ { apiGroup := "coordination.k8s.io", apiVersion := "v1",
            name := ["kube-controller-manager", "kube-scheduler"], kind := "Lease",
            «namespace» := "kube-system", scope := some NamespacedScope },
          { apiGroup := "", apiVersion := "v1",
            name := ["kube-controller-manager", "kube-scheduler"], kind := "Endpoints",
            «namespace» := "kube-system", scope := some NamespacedScope } ]
    ∧ defaultExclusion ≠ []
    ∧ readFile (FileOutcome.parsed data) = data := by
  refine ⟨rfl, rfl, rfl, rfl, by decide, rfl⟩

/-- C4: counterexample to the four-field "iff". `wildcardLeaseNoScope`
satisfies the four-field Lease/kube-node-lease condition and carries the
name wildcard, yet it does not survive validation, because its scope is
unset. -/
theorem c4_counterexample :
    contains wildcardLeaseNoScope.name "*" = true
    ∧ wildcardLeaseNoScope.apiGroup = "coordination.k8s.io"
    ∧ wildcardLeaseNoScope.apiVersion = "v1"
    ∧ wildcardLeaseNoScope.kind = "Lease"
    ∧ wildcardLeaseNoScope.«namespace» = "kube-node-lease"
    ∧ wildcardLeaseNoScope ∈ [wildcardLeaseNoScope]
    ∧ filterValidRules [wildcardLeaseNoScope] = [] := by
  decide

/-- C4 amended: a rule whose names contain the wildcard token survives
validation iff `apiGroup = "coordination.k8s.io"`, `apiVersion = "v1"`,
`kind = "Lease"`, `namespace = "kube-node-lease"`, and additionally its
scope is set and is neither the wildcard token `"*"` (All) nor
`"Cluster"` (an unset scope and the All scope are rejected outright, a
`Cluster` scope because the namespace is non-empty; any other scope
string — `"Namespaced"` or any out-of-enum value admitted by the
string-typed scope field — passes). -/
theorem c4_wildcard_name_validation (r : ExclusionRule) (l : List ExclusionRule)
    (hmem : r ∈ l) (hw : contains r.name "*" = true) :
    r ∈ filterValidRules l ↔
      (r.apiGroup = "coordination.k8s.io" ∧ r.apiVersion = "v1" ∧ r.kind = "Lease"
        ∧ r.«namespace» = "kube-node-lease"
        ∧ r.scope ≠ none ∧ r.scope ≠ some AllScopes ∧ r.scope ≠ some ClusterScope) := by
  rw [filterValidRules_eq_filter, List.mem_filter]
  constructor
  · rintro ⟨-, hv⟩
    obtain ⟨s, hs, hAll, e1, e2, e3, e4, hwc, hc, hn⟩ := (ruleValid_iff_spec r).mp hv
    obtain ⟨g, v, k, ns⟩ := hwc hw
    refine ⟨g, v, k, ns, ?_, ?_, ?_⟩
    · rw [hs]
      simp
    · rw [hs]
      intro hcontra
      exact hAll (Option.some.inj hcontra)
    · rw [hs]
      intro hcontra
      have hempty := hc (Option.some.inj hcontra)
      rw [ns] at hempty
      exact absurd hempty (by decide)
  · rintro ⟨g, v, k, ns, h0, hA, hC⟩
    obtain ⟨s, hs⟩ : ∃ s, r.scope = some s := by
      cases hopt : r.scope with
      | none => exact absurd hopt h0
      | some s => exact ⟨s, rfl⟩
    refine ⟨hmem, (ruleValid_iff_spec r).mpr ?_⟩
    refine ⟨s, hs, ?_, ?_, ?_, ?_, ?_, ?_, ?_, ?_⟩
    · intro hsA
      rw [hsA] at hs
      exact hA hs
    · rw [g]; decide
    · rw [v]; decide
    · rw [ns]; decide
    · rw [k]; decide
    · intro _
      exact ⟨g, v, k, ns⟩
    · intro hsC
      rw [hsC] at hs
      exact absurd hs hC
    · intro _
      rw [ns]; decide

/-- Witness for the amended C4 at `wildcardLeaseBogusScope`, whose scope
string is none of the named constants: the validator keeps it, as the
amended condition says. -/
theorem c4_witness :
    wildcardLeaseBogusScope ∈ [wildcardLeaseBogusScope]
    ∧ contains wildcardLeaseBogusScope.name "*" = true
    ∧ filterValidRules [wildcardLeaseBogusScope] = [wildcardLeaseBogusScope]
    ∧ (wildcardLeaseBogusScope ∈ filterValidRules [wildcardLeaseBogusScope] ↔
        (wildcardLeaseBogusScope.apiGroup = "coordination.k8s.io"
          ∧ wildcardLeaseBogusScope.apiVersion = "v1"
          ∧ wildcardLeaseBogusScope.kind = "Lease"
          ∧ wildcardLeaseBogusScope.«namespace» = "kube-node-lease"
          ∧ wildcardLeaseBogusScope.scope ≠ none
          ∧ wildcardLeaseBogusScope.scope ≠ some AllScopes
          ∧ wildcardLeaseBogusScope.scope ≠ some ClusterScope)) :=
  ⟨by decide, by decide, by decide,
    c4_wildcard_name_validation wildcardLeaseBogusScope [wildcardLeaseBogusScope]
      (by decide) (by decide)⟩

/-- C5: counterexample. The `Namespaced` rule `namespacedRuleOnNamespaces`
targets namespace objects (core `v1`, kind `Namespace`, the cluster-scoped
namespaces resource) yet survives validation, and a request creating the
namespace `foo` is excluded on account of it. -/
theorem c5_counterexample :
    namespacedRuleOnNamespaces.scope = some NamespacedScope
    ∧ namespacedRuleOnNamespaces.kind = "Namespace"
    ∧ namespaceCreateAttributes.resource = namespaceResource
    ∧ filterValidRules [namespacedRuleOnNamespaces] = [namespacedRuleOnNamespaces]
    ∧ (CriticalPathExcluder.mk
          (filterValidRules [namespacedRuleOnNamespaces])
        ).ShouldSkipWebhookDueToExclusionRules namespaceCreateAttributes = true := by
  decide

/-- C5 amended: a rule with `Namespaced` scope and an empty namespace
field — the natural shape of a rule aimed at the cluster-scoped namespaces
resource — is rejected by the validator, so an excluder built from it
holds no rules and never skips any request; rules with a non-empty
namespace survive validation and can exclude namespace requests (see the
counterexample). -/
theorem c5_namespaced_empty_namespace_rejected
    (r : ExclusionRule) (l : List ExclusionRule) (attr : Attributes)
    (hscope : r.scope = some NamespacedScope) (hns : r.«namespace» = "") :
    r ∉ filterValidRules l
    ∧ (CriticalPathExcluder.mk
          (filterValidRules [r])).ShouldSkipWebhookDueToExclusionRules attr = false := by
  have hv : ruleValid r = false := by
    rw [Bool.eq_false_iff]
    intro hval
    obtain ⟨s, hs, -, -, -, -, -, -, -, hn⟩ := (ruleValid_iff_spec r).mp hval
    rw [hscope] at hs
    cases hs
    exact hn rfl hns
  constructor
  · rw [filterValidRules_eq_filter]
    intro hmem
    rw [List.mem_filter, hv] at hmem
    exact absurd hmem.2 (by decide)
  · have : filterValidRules [r] = [] := by
      rw [filterValidRules_eq_filter]
      simp [hv]
    rw [this]
    rfl

/-- Witness for the amended C5: a rule of kind `Namespace` with
`Namespaced` scope and empty namespace is dropped, and the resulting
excluder does not skip the namespace-create request. -/
theorem c5_witness :
    (⟨"", "v1", ["foo"], "Namespace", "", some NamespacedScope⟩ : ExclusionRule).scope
        = some NamespacedScope
    ∧ (⟨"", "v1", ["foo"], "Namespace", "", some NamespacedScope⟩ : ExclusionRule).«namespace» = ""
    ∧ ((⟨"", "v1", ["foo"], "Namespace", "", some NamespacedScope⟩ : ExclusionRule)
          ∉ filterValidRules [⟨"", "v1", ["foo"], "Namespace", "", some NamespacedScope⟩]
      ∧ (CriticalPathExcluder.mk
            (filterValidRules [⟨"", "v1", ["foo"], "Namespace", "", some NamespacedScope⟩])
          ).ShouldSkipWebhookDueToExclusionRules namespaceCreateAttributes = false) :=
  ⟨by decide, by decide,
    c5_namespaced_empty_namespace_rejected
      ⟨"", "v1", ["foo"], "Namespace", "", some NamespacedScope⟩
      [⟨"", "v1", ["foo"], "Namespace", "", some NamespacedScope⟩]
      namespaceCreateAttributes (by decide) (by decide)⟩

/-- C6: counterexample. `emptyFieldsRule` has an absent (empty) names
list, empty apiGroup, apiVersion and kind, and a `Namespaced` scope with a
non-empty namespace; the claim says such a rule fails validation (the
carve-out covers empty apiGroup only under `Cluster` scope), but the
validator keeps it: none of names, apiGroup, apiVersion or kind are
checked for emptiness. -/
theorem c6_counterexample :
    emptyFieldsRule.name = []
    ∧ emptyFieldsRule.apiGroup = ""
    ∧ emptyFieldsRule.apiVersion = ""
    ∧ emptyFieldsRule.kind = ""
    ∧ emptyFieldsRule.scope = some NamespacedScope
    ∧ filterValidRules [emptyFieldsRule] = [emptyFieldsRule] := by
  decide

/-- C6 amended: among the defaults of absent configuration fields, only an
unset scope, or an empty namespace under `Namespaced` scope, cause
validation failure; an empty names list and empty apiGroup, apiVersion and
kind strings are never grounds for rejection (`emptyFieldsRule`, which has
all four empty with `Namespaced` scope and a non-empty namespace,
survives). -/
theorem c6_absent_field_validation (r : ExclusionRule) (l : List ExclusionRule)
    (h : r.scope = none ∨ (r.scope = some NamespacedScope ∧ r.«namespace» = "")) :
    r ∉ filterValidRules l
    ∧ filterValidRules [emptyFieldsRule] = [emptyFieldsRule] := by
  refine ⟨?_, by decide⟩
  have hv : ruleValid r = false := by
    rw [Bool.eq_false_iff]
    intro hval
    obtain ⟨s, hs, -, -, -, -, -, -, -, hn⟩ := (ruleValid_iff_spec r).mp hval
    rcases h with h | ⟨h1, h2⟩
    · rw [h] at hs
      exact Option.noConfusion hs
    · rw [h1] at hs
      cases hs
      exact hn rfl h2
  rw [filterValidRules_eq_filter]
  intro hmem
  rw [List.mem_filter, hv] at hmem
  exact absurd hmem.2 (by decide)

/-- Witness for the amended C6 at the unset-scope rule
`wildcardLeaseNoScope`. -/
theorem c6_witness :
    wildcardLeaseNoScope.scope = none
    ∧ (wildcardLeaseNoScope ∉ filterValidRules [wildcardLeaseNoScope]
      ∧ filterValidRules [emptyFieldsRule] = [emptyFieldsRule]) :=
  ⟨by decide,
    c6_absent_field_validation wildcardLeaseNoScope [wildcardLeaseNoScope]
      (Or.inl (by decide))⟩

/-- C7: the validator's output is the order-preserving filter of its input
by the specification's per-rule conditions (`RulePassesSpec`), hence an
order-preserving subsequence of length at most the input's, and a rejected
rule never prevents later rules from being processed. -/
theorem c7_validator_contract (l pre post : List ExclusionRule) (r : ExclusionRule)
    (hr : ¬ RulePassesSpec r) :
    filterValidRules l = l.filter (fun q => decide (RulePassesSpec q))
    ∧ List.Sublist (filterValidRules l) l
    ∧ (filterValidRules l).length ≤ l.length
    ∧ filterValidRules (pre ++ r :: post) = filterValidRules (pre ++ post) := by
  have hfil : ∀ m : List ExclusionRule,
      filterValidRules m = m.filter (fun q => decide (RulePassesSpec q)) := by
    intro m
    rw [filterValidRules_eq_filter]
    congr 1
    funext q
    exact (decide_rulePassesSpec_eq_ruleValid q).symm
  refine ⟨hfil l, ?_, ?_, ?_⟩
  · rw [filterValidRules_eq_filter]
    exact List.filter_sublist l
  · rw [filterValidRules_eq_filter]
    exact (List.filter_sublist l).length_le
  · rw [hfil, hfil, List.filter_append, List.filter_append, List.filter_cons]
    simp [hr]

/-- Witness for C7 at the default rule list, with the unset-scope wildcard
rule as the rejected rule. -/
theorem c7_witness :
    ¬ RulePassesSpec wildcardLeaseNoScope
    ∧ (filterValidRules defaultExclusion
          = defaultExclusion.filter (fun q => decide (RulePassesSpec q))
      ∧ List.Sublist (filterValidRules defaultExclusion) defaultExclusion
      ∧ (filterValidRules defaultExclusion).length ≤ defaultExclusion.length
      ∧ filterValidRules (defaultExclusion ++ wildcardLeaseNoScope :: [])
          = filterValidRules (defaultExclusion ++ [])) :=
  ⟨by decide,
    c7_validator_contract defaultExclusion defaultExclusion [] wildcardLeaseNoScope (by decide)⟩

/-- C8: with no external configuration source the default rules are
active; a write to core `v1 Endpoints` named `kube-controller-manager` in
namespace `kube-system` is skipped, the same write in namespace `default`
is not, for any subresource and operation. -/
theorem c8_default_rules_endpoints (sub op : String) :
    (NewCriticalPathExcluder FileOutcome.noEnvVar).ShouldSkipWebhookDueToExclusionRules
        (endpointsWriteAttributes "kube-system" sub op) = true
    ∧ (NewCriticalPathExcluder FileOutcome.noEnvVar).ShouldSkipWebhookDueToExclusionRules
        (endpointsWriteAttributes "default" sub op) = false := by
  exact ⟨rfl, rfl⟩

/-- C9: the validator is idempotent — filtering its own output changes
nothing. -/
theorem c9_validator_idempotent (l : List ExclusionRule) :
    filterValidRules (filterValidRules l) = filterValidRules l := by
  rw [filterValidRules_eq_filter l, filterValidRules_eq_filter (l.filter ruleValid),
    List.filter_filter]
  simp

/-- C10: `Matcher.Matches` reads only the request's resource group,
resource version, kind name, namespace and name, and only the rule's
apiGroup, apiVersion, names, kind and namespace: two requests agreeing on
those attribute fields and two rules agreeing on those rule fields (the
scope may differ) produce the same decision; the request's resource name,
subresource and operation are never consulted. -/
theorem c10_matches_reads_only_matched_fields
    (r1 r2 : ExclusionRule) (a1 a2 : Attributes)
    (hrg : r1.apiGroup = r2.apiGroup) (hrv : r1.apiVersion = r2.apiVersion)
    (hrn : r1.name = r2.name) (hrk : r1.kind = r2.kind)
    (hrns : r1.«namespace» = r2.«namespace»)
    (hag : a1.resource.group = a2.resource.group)
    (hav : a1.resource.version = a2.resource.version)
    (hak : a1.kind.kind = a2.kind.kind)
    (hans : a1.«namespace» = a2.«namespace») (han : a1.name = a2.name) :
    (Matcher.mk r1 a1).Matches = (Matcher.mk r2 a2).Matches := by
  show (exactOrWildcard r1.name a1.name
      && decide (r1.«namespace» = a1.«namespace»)
      && decide (r1.apiGroup = a1.resource.group)
      && decide (r1.apiVersion = a1.resource.version)
      && decide (r1.kind = a1.kind.kind))
    = (exactOrWildcard r2.name a2.name
      && decide (r2.«namespace» = a2.«namespace»)
      && decide (r2.apiGroup = a2.resource.group)
      && decide (r2.apiVersion = a2.resource.version)
      && decide (r2.kind = a2.kind.kind))
  rw [hrg, hrv, hrn, hrk, hrns, hag, hav, hak, hans, han]

/-- A `Namespaced` deployment rule, for the C10 witness. -/
def deployRuleNamespaced : ExclusionRule :=
  { apiGroup := "apps", apiVersion := "v1", name := ["my-deploy"],
    kind := "Deployment", «namespace» := "ns", scope := some NamespacedScope }

/-- The same deployment rule with its scope left unset. -/
def deployRuleNoScope : ExclusionRule :=
  { apiGroup := "apps", apiVersion := "v1", name := ["my-deploy"],
    kind := "Deployment", «namespace» := "ns", scope := none }

/-- A create of the deployment `my-deploy`. -/
def deployCreateAttributes : Attributes :=
  { kind := { group := "apps", version := "v1", kind := "Deployment" },
    «namespace» := "ns", name := "my-deploy",
    resource := { group := "apps", version := "v1", resource := "deployments" },
    subresource := "", operation := "CREATE" }

/-- The same request fields with a different resource name, subresource
and operation. -/
def deployStatusDeleteAttributes : Attributes :=
  { kind := { group := "apps", version := "v1", kind := "Deployment" },
    «namespace» := "ns", name := "my-deploy",
    resource := { group := "apps", version := "v1", resource := "deployments2" },
    subresource := "status", operation := "DELETE" }

/-- Witness for C10: two rules differing only in scope and two requests
differing in resource name, subresource and operation decide alike. -/
theorem c10_witness :
    deployRuleNamespaced.apiGroup = deployRuleNoScope.apiGroup
    ∧ deployRuleNamespaced.apiVersion = deployRuleNoScope.apiVersion
    ∧ deployRuleNamespaced.name = deployRuleNoScope.name
    ∧ deployRuleNamespaced.kind = deployRuleNoScope.kind
    ∧ deployRuleNamespaced.«namespace» = deployRuleNoScope.«namespace»
    ∧ deployCreateAttributes.resource.group = deployStatusDeleteAttributes.resource.group
    ∧ deployCreateAttributes.resource.version = deployStatusDeleteAttributes.resource.version
    ∧ deployCreateAttributes.kind.kind = deployStatusDeleteAttributes.kind.kind
    ∧ deployCreateAttributes.«namespace» = deployStatusDeleteAttributes.«namespace»
    ∧ deployCreateAttributes.name = deployStatusDeleteAttributes.name
    ∧ (Matcher.mk deployRuleNamespaced deployCreateAttributes).Matches
        = (Matcher.mk deployRuleNoScope deployStatusDeleteAttributes).Matches :=
  ⟨rfl, rfl, rfl, rfl, rfl, rfl, rfl, rfl, rfl, rfl,
    c10_matches_reads_only_matched_fields deployRuleNamespaced deployRuleNoScope
      deployCreateAttributes deployStatusDeleteAttributes
      rfl rfl rfl rfl rfl rfl rfl rfl rfl rfl⟩
